import Mathlib

/-!
Verification development for the coredns-netbox-plugin repository
(package `netbox`).  The Go source is shallowly embedded: pure record
conversion (`DNSRecord.RR`, `DNSZone.RR`), the HTTP lookup clients
(`queryRecord`, `queryZone`) with the transport abstracted to an HTTP
result value, the two dispatch paths (`queryDNSPlugin`, `queryNative`)
parameterised over abstract backends, and the wire disposition logic of
`ServeDNS` / `dnserror`.  Machine integers of the source (uint16, uint32)
are modelled as `Nat`/`Int` with explicit reduction modulo a power of two
exactly where the Go code performs a narrowing conversion.
-/

/-! ## Basic string helpers (models of Go `strings` operations) -/

/-- Splits a character list at every occurrence of `sep`, keeping empty
segments, as Go `strings.Split` does for a one-character separator.
`splitChar sep []` is `[[]]`, matching `strings.Split("", sep) = [""]`. -/
def splitChar (sep : Char) : List Char → List (List Char)
  | [] => [[]]
  | c :: cs =>
    if c = sep then [] :: splitChar sep cs
    else
      match splitChar sep cs with
      | h :: t => (c :: h) :: t
      | [] => [[c]]

/-- Model of Go `strings.Split(s, " ")`: split on every single space,
keeping empty fields. -/
def splitSpace (s : String) : List String :=
  (splitChar ' ' s.data).map String.mk

/-- Model of Go `strings.TrimRight(s, ".")`: drop every trailing dot. -/
def trimRightDot (s : String) : String :=
  String.mk ((s.data.reverse.dropWhile (fun c => c == '.')).reverse)

/-- Lower-cases every character of a string (model of Go `strings.ToLower`
restricted to ASCII names, which is all DNS zone matching uses). -/
def toLowerStr (s : String) : String :=
  String.mk (s.data.map Char.toLower)

/-! ## Model of Go `strconv.ParseInt(s, 10, 32)` -/

/-- Model of Go `strconv.ParseInt(s, 10, 32)`: an optional single sign,
then one or more decimal digits, and the signed value must fit in 32
bits.  Returns `none` exactly when the Go call returns a non-nil error
(syntax error or range error — the caller treats both alike). -/
def parseInt32 (s : String) : Option Int :=
  let signAndDigits : Bool × List Char :=
    match s.data with
    | '-' :: rest => (true, rest)
    | '+' :: rest => (false, rest)
    | l => (false, l)
  let neg := signAndDigits.1
  let ds := signAndDigits.2
  if ds = [] then none
  else if ds.all Char.isDigit then
    let n : Nat := ds.foldl (fun acc c => acc * 10 + (c.toNat - 48)) 0
    let v : Int := if neg then -(n : Int) else (n : Int)
    if -(2 ^ 31) ≤ v ∧ v ≤ 2 ^ 31 - 1 then some v else none
  else none

/-! ## Model of Go `net.ParseIP` -/

/-- IP address as produced by `net.ParseIP`: a parsed IPv4 dotted quad or
an IPv6 address given by its eight 16-bit groups. -/
inductive IP where
  | v4 (o1 o2 o3 o4 : Nat)
  | v6 (groups : List Nat)
deriving DecidableEq

/-- One decimal octet of a dotted quad: digits only, value at most 255,
no leading zero (Go rejects leading zeros in IPv4 literals). -/
def parseOctet (ds : List Char) : Option Nat :=
  if ds = [] then none
  else if ds.all Char.isDigit then
    if 1 < ds.length ∧ ds.head? = some '0' then none
    else
      let n := ds.foldl (fun acc c => acc * 10 + (c.toNat - 48)) 0
      if n ≤ 255 then some n else none
  else none

/-- Dotted-quad IPv4 parse: exactly four valid octets. -/
def parseIPv4core (cs : List Char) : Option IP :=
  match (splitChar '.' cs).mapM parseOctet with
  | some [x1, x2, x3, x4] => some (.v4 x1 x2 x3 x4)
  | _ => none

/-- Hexadecimal digit test for IPv6 groups. -/
def isHexDigit (c : Char) : Bool :=
  c.isDigit || (c ≥ 'a' && c ≤ 'f') || (c ≥ 'A' && c ≤ 'F')

/-- Value of a hexadecimal digit. -/
def hexVal (c : Char) : Nat :=
  if c.isDigit then c.toNat - 48
  else if c ≥ 'a' then c.toNat - 87
  else c.toNat - 55

/-- One 16-bit IPv6 group: one to four hex digits. -/
def parseHexGroup (ds : List Char) : Option Nat :=
  if ds = [] then none
  else if ds.length ≤ 4 ∧ ds.all isHexDigit then
    some (ds.foldl (fun acc c => acc * 16 + hexVal c) 0)
  else none

/-- Parses a list of colon-separated parts as plain hex groups. -/
def parseHexGroups (parts : List (List Char)) : Option (List Nat) :=
  parts.mapM parseHexGroup

/-- Parses colon-separated parts where the final part may instead be an
embedded dotted-quad IPv4 address contributing two 16-bit groups. -/
def parseTailGroups : List (List Char) → Option (List Nat)
  | [] => some []
  | [last] =>
    match parseHexGroup last with
    | some g => some [g]
    | none =>
      match parseIPv4core last with
      | some (.v4 x1 x2 x3 x4) => some [x1 * 256 + x2, x3 * 256 + x4]
      | _ => none
  | p :: rest =>
    match parseHexGroup p, parseTailGroups rest with
    | some g, some gs => some (g :: gs)
    | _, _ => none

/-- Splits a character list at every occurrence of the two-character
separator given by a double colon. -/
def splitColonColon : List Char → List (List Char)
  | [] => [[]]
  | ':' :: ':' :: rest => [] :: splitColonColon rest
  | c :: rest =>
    match splitColonColon rest with
    | h :: t => (c :: h) :: t
    | [] => [[c]]

/-- IPv6 parse: at most one double colon; without it exactly eight
groups, with it strictly fewer, the gap padded with zero groups; the
final group position may hold an embedded IPv4 address. -/
def parseIPv6core (cs : List Char) : Option IP :=
  match splitColonColon cs with
  | [one] =>
    match parseTailGroups (splitChar ':' one) with
    | some gs => if gs.length = 8 then some (.v6 gs) else none
    | none => none
  | [l, r] =>
    let lparts := if l = [] then [] else splitChar ':' l
    let rparts := if r = [] then [] else splitChar ':' r
    match parseHexGroups lparts, parseTailGroups rparts with
    | some lg, some rg =>
      if lg.length + rg.length < 8 then
        some (.v6 (lg ++ List.replicate (8 - lg.length - rg.length) 0 ++ rg))
      else none
    | _, _ => none
  | _ => none

/-- Model of Go `net.ParseIP`: the first dot or colon encountered decides
the address family; `none` models the nil return of the Go function. -/
def parseIP (s : String) : Option IP :=
  match s.data.find? (fun c => c == '.' || c == ':') with
  | some '.' => parseIPv4core s.data
  | some ':' => parseIPv6core s.data
  | _ => none

/-! ## DNS numeric constants (from github.com/miekg/dns) -/

def typeA : Nat := 1
def typeNS : Nat := 2
def typeCNAME : Nat := 5
def typeSOA : Nat := 6
def typePTR : Nat := 12
def typeMX : Nat := 15
def typeTXT : Nat := 16
def typeAAAA : Nat := 28
def classINET : Nat := 1
def rcodeSuccess : Nat := 0
def rcodeServerFailure : Nat := 2
def rcodeNameError : Nat := 3

/-! ## Record model (querydns.go) -/

/-- Header shared by all resource records (`dns.RR_Header`). -/
structure RRHeader where
  name : String
  rrtype : Nat
  rrclass : Nat
  ttl : Nat
deriving DecidableEq

/-- A produced resource record.  `null` is the `&dns.NULL\x7b\x7d` no-op
record the Go conversion returns for malformed or unknown input; the `a`
and `aaaa` payloads are `Option IP` because `net.ParseIP` yields nil on a
bad literal and the Go code stores that nil verbatim. -/
inductive RR where
  | null
  | a (hdr : RRHeader) (ip : Option IP)
  | aaaa (hdr : RRHeader) (ip : Option IP)
  | cname (hdr : RRHeader) (target : String)
  | ptr (hdr : RRHeader) (ptrName : String)
  | ns (hdr : RRHeader) (nsName : String)
  | mx (hdr : RRHeader) (mxPref : Nat) (mxHost : String)
  | txt (hdr : RRHeader) (txt : List String)
  | soa (hdr : RRHeader) (nsName mbox : String) (serial refresh retry expire minttl : Nat)
deriving DecidableEq

/-- Header TTL of a produced record, `none` for the null record. -/
def RR.headerTTL : RR → Option Nat
  | .null => none
  | .a h _ => some h.ttl
  | .aaaa h _ => some h.ttl
  | .cname h _ => some h.ttl
  | .ptr h _ => some h.ttl
  | .ns h _ => some h.ttl
  | .mx h _ _ => some h.ttl
  | .txt h _ => some h.ttl
  | .soa h _ _ _ _ _ _ _ => some h.ttl

/-- Backend record as decoded from the rich-backend JSON (`DNSRecord` in
querydns.go).  The Go `Type` field (a string) is named `rtype` here;
`ttl` is the uint32 field, zero when the JSON value is null/absent. -/
structure DNSRecord where
  rtype : String
  ttl : Nat
  value : String
  absoluteValue : String
  fqdn : String
deriving DecidableEq

/-- Model of the Go map `DNSRecordReverseMap`; indexing a Go map with a
missing key yields the zero value 0. -/
def dnsRecordReverseMap (t : String) : Nat :=
  if t = "A" then typeA
  else if t = "AAAA" then typeAAAA
  else if t = "PTR" then typePTR
  else if t = "CNAME" then typeCNAME
  else if t = "NS" then typeNS
  else if t = "SOA" then typeSOA
  else if t = "MX" then typeMX
  else if t = "TXT" then typeTXT
  else 0

/-- The MX arm of `DNSRecord.RR`: the absolute value is split on every
space; anything other than exactly two fields, or a first field that
`strconv.ParseInt(_, 10, 32)` rejects, yields the null record; otherwise
the preference is the parsed value narrowed to uint16 (its low 16 bits). -/
def mxOf (header : RRHeader) : List String → RR
  | [prefStr, host] =>
    match parseInt32 prefStr with
    | none => RR.null
    | some p => RR.mx header ((p % 65536).toNat) host
  | _ => RR.null

/-- The MX conversion applied to the space-split fields of the absolute
value. -/
def mxRR (header : RRHeader) (absoluteValue : String) : RR :=
  mxOf header (splitSpace absoluteValue)

/-- Model of `(*DNSRecord).RR()` from querydns.go: the type switch over
the record's type string.  The header always carries the record's own
fqdn, mapped rrtype, internet class, and its own TTL verbatim. -/
def DNSRecord.RR (r : DNSRecord) : RR :=
  let header : RRHeader := ⟨r.fqdn, dnsRecordReverseMap r.rtype, classINET, r.ttl⟩
  if r.rtype = "A" then RR.a header (parseIP r.absoluteValue)
  else if r.rtype = "AAAA" then RR.aaaa header (parseIP r.absoluteValue)
  else if r.rtype = "CNAME" then RR.cname header r.absoluteValue
  else if r.rtype = "PTR" then RR.ptr header r.absoluteValue
  else if r.rtype = "NS" then RR.ns header r.absoluteValue
  else if r.rtype = "MX" then mxRR header r.absoluteValue
  else if r.rtype = "TXT" then RR.txt header [r.absoluteValue]
  else RR.null

/-- Backend zone as decoded from the rich-backend JSON (`DNSZone` in
querydns.go); `mname` is the name inside the nested `soa_mname` object. -/
structure DNSZone where
  name : String
  mname : String
  rname : String
  serial : Nat
  refresh : Nat
  retry : Nat
  expire : Nat
  minimum : Nat
  ttl : Nat
deriving DecidableEq

/-- Model of `(*DNSZone).RR()` from querydns.go: a SOA record whose owner,
primary nameserver and mailbox get a trailing dot appended and whose
numeric fields are copied verbatim. -/
def DNSZone.RR (z : DNSZone) : RR :=
  RR.soa ⟨z.name ++ ".", typeSOA, classINET, z.ttl⟩ (z.mname ++ ".") (z.rname ++ ".")
    z.serial z.refresh z.retry z.expire z.minimum

/-! ## HTTP lookup clients (querydns.go)

The HTTP transport and JSON decoder are external libraries; a lookup's
raw outcome is modelled as either a transport-level error or a response
carrying a status code and the decoder's result on the body (`none` when
the body does not decode as the expected schema). -/

/-- Outcome of the underlying HTTP GET as seen by the lookup functions. -/
inductive HTTPResult (β : Type) where
  | transportError (msg : String)
  | response (status : Nat) (decoded : Option β)

/-- Model of `(*Netbox).queryRecord`: a transport error, a status other
than 200, or an undecodable body each yield a non-nil error; a 200
response with a decodable body yields the decoded record list and a nil
error.  (On the error paths Go returns the zero-value record list.) -/
def queryRecord (resp : HTTPResult (List DNSRecord)) : List DNSRecord × Option String :=
  match resp with
  | .transportError m => ([], some ("problem performing request: " ++ m))
  | .response status decoded =>
    if status ≠ 200 then ([], some ("bad HTTP response code: " ++ toString status))
    else
      match decoded with
      | none => ([], some "could not unmarshal response")
      | some rs => (rs, none)

/-- Model of `(*Netbox).queryZone`, with the same error structure as
`queryRecord` but decoding a zone list. -/
def queryZone (resp : HTTPResult (List DNSZone)) : List DNSZone × Option String :=
  match resp with
  | .transportError m => ([], some ("problem performing request: " ++ m))
  | .response status decoded =>
    if status ≠ 200 then ([], some ("bad HTTP response code: " ++ toString status))
    else
      match decoded with
      | none => ([], some "could not unmarshal response")
      | some zs => (zs, none)

/-! ## Query sets and the rich dispatch path (querydns.go, netboxdns.go) -/

/-- Model of the Go map `DNSQueryReverseMap` from numeric question type
to query-parameter set; `none` models a failed map lookup. -/
def dnsQueryReverseMap (qtype : Nat) : Option String :=
  if qtype = typeA then some "type=A&type=CNAME"
  else if qtype = typeAAAA then some "type=AAAA&type=CNAME"
  else if qtype = typePTR then some "type=PTR"
  else if qtype = typeCNAME then some "type=CNAME"
  else if qtype = typeNS then some "type=NS"
  else if qtype = typeMX then some "type=MX"
  else if qtype = typeTXT then some "type=TXT"
  else none

/-- Go map indexing without the ok flag (`DNSQueryReverseMap[qtype]`):
a missing key yields the zero value, the empty string. -/
def querySetFor (qtype : Nat) : String :=
  (dnsQueryReverseMap qtype).getD ""

/-- The rich backend as used by `queryDNSPlugin`: `queryRecord` takes
zone, fqdn and query set; `queryZone` takes the zone.  Each returns a
result list together with a Go error (`none` for nil). -/
structure RichBackend where
  queryRecord : String → String → String → List DNSRecord × Option String
  queryZone : String → List DNSZone × Option String

/-- One step of the loop body in `queryDNSPlugin` acting on the local
`records` slice variable: when the current record is a CNAME and the
question was A or AAAA, a second lookup against the alias target is made
with the original question's query set and, if it succeeds, its results
are appended to `records`; on error `records` is left unchanged (the
error is shadowed and swallowed). -/
def nextRecords (n : RichBackend) (zone : String) (qtype : Nat)
    (record : DNSRecord) (records : List DNSRecord) : List DNSRecord :=
  if record.rtype == "CNAME" && (qtype == typeA || qtype == typeAAAA) then
    match n.queryRecord zone record.absoluteValue (querySetFor qtype) with
    | (resolvedRecs, none) => records ++ resolvedRecs
    | (_, some _) => records
  else records

/-- The record loop of `queryDNSPlugin`.  Go evaluates a range expression
once before the loop begins, so the loop iterates over the snapshot of
`records` taken at loop entry (the first argument); the `records`
variable that the body appends resolved records to (the second argument)
is threaded through exactly as in the source and, as in the source, the
elements appended to it are never themselves visited.  Each iteration
appends the conversion of the visited record to the answer list. -/
def rangeResolve (n : RichBackend) (zone : String) (qtype : Nat) :
    List DNSRecord → List DNSRecord → List DNSRecord × List RR
  | [], records => (records, [])
  | record :: rest, records =>
    ((rangeResolve n zone qtype rest (nextRecords n zone qtype record records)).1,
      record.RR :: (rangeResolve n zone qtype rest (nextRecords n zone qtype record records)).2)

/-- Model of `(*Netbox).queryDNSPlugin`: a SOA question goes to
`queryZone` and the answers are the zone conversions; any other question
type is resolved through `DNSQueryReverseMap` (failing with "request
type not implemented" when absent) and goes to `queryRecord`, whose
results run through the record loop; the error of the first lookup is
returned alongside the answers. -/
def queryDNSPlugin (n : RichBackend) (zone : String) (qname : String) (qtype : Nat) :
    List RR × Option String :=
  if qtype = typeSOA then
    let zres := n.queryZone zone
    (zres.1.map DNSZone.RR, zres.2)
  else
    match dnsQueryReverseMap qtype with
    | none => ([], some "request type not implemented")
    | some querySet =>
      let rres := n.queryRecord zone qname querySet
      ((rangeResolve n zone qtype rres.1 rres.1).2, rres.2)

/-! ## Legacy dispatch path (netboxdns.go) -/

/-- The legacy backend as used by `queryNative`: `query` looks up IP
addresses by hostname and family (4 or 6), `queryreverse` looks up
hostnames by reversed address name.  (The HTTP clients behind these live
outside the dispatcher and are abstracted here.) -/
structure LegacyBackend where
  query : String → Nat → List IP × Option String
  queryreverse : String → List String × Option String

/-- Model of the helper `a` in netboxdns.go: one A record per IP, all
carrying the caller-supplied TTL. -/
def a (zone : String) (ttl : Nat) (ips : List IP) : List RR :=
  ips.map (fun ip => RR.a ⟨zone, typeA, classINET, ttl⟩ (some ip))

/-- Model of the helper `aaaa` in netboxdns.go. -/
def aaaa (zone : String) (ttl : Nat) (ips : List IP) : List RR :=
  ips.map (fun ip => RR.aaaa ⟨zone, typeAAAA, classINET, ttl⟩ (some ip))

/-- Model of the helper `ptr` in netboxdns.go. -/
def ptr (zone : String) (ttl : Nat) (domains : List String) : List RR :=
  domains.map (fun d => RR.ptr ⟨zone, typePTR, classINET, ttl⟩ d)

/-- Model of `(*Netbox).queryNative`: A, AAAA and PTR questions dispatch
to the legacy lookups, every produced record carrying the configured
default TTL (`uint32(n.TTL.Seconds())`, here the whole-second value
`nTTL`); any other question type fails immediately. -/
def queryNative (nTTL : Nat) (b : LegacyBackend) (qname : String) (qtype : Nat) :
    List RR × Option String :=
  if qtype = typeA then
    let res := b.query (trimRightDot qname) 4
    (a qname nTTL res.1, res.2)
  else if qtype = typeAAAA then
    let res := b.query (trimRightDot qname) 6
    (aaaa qname nTTL res.1, res.2)
  else if qtype = typePTR then
    let res := b.queryreverse qname
    (ptr qname nTTL res.1, res.2)
  else ([], some "request type not implemented")

/-! ## Zone matching and fallthrough (coredns plugin and fall packages) -/

/-- Labels of a DNS name: lower-cased, trailing root dot removed, split
at dots (model of the label view used by `dns.IsSubDomain`). -/
def dnsLabels (s : String) : List String :=
  let cs := s.data.map Char.toLower
  let cs := if cs.getLast? = some '.' then cs.dropLast else cs
  if cs = [] then [] else (splitChar '.' cs).map String.mk

/-- Model of `dns.IsSubDomain(parent, child)`: the parent's labels are a
case-insensitive suffix of the child's labels (the root, with no labels,
is a parent of everything). -/
def isSubDomain (parent child : String) : Bool :=
  (dnsLabels parent).isSuffixOf (dnsLabels child)

/-- Model of `plugin.Zones(zones).Matches(qname)`: the longest configured
zone of which qname is a subdomain, or the empty string when none is. -/
def zonesMatches (zones : List String) (qname : String) : String :=
  zones.foldl
    (fun zone zname =>
      if isSubDomain zname qname ∧ zone.length < zname.length then zname else zone) ""

/-- Model of `fall.F.Through(qname)`: fallthrough is enabled for a name
exactly when the name matches one of the fallthrough zones (`.` standing
for wildcard-all). -/
def fallThrough (fzones : List String) (qname : String) : Bool :=
  zonesMatches fzones qname != ""

/-! ## ServeDNS disposition (netboxdns.go) -/

/-- Engine configuration held by the `Netbox` plugin value: authoritative
zones, fallthrough zones, the rich-backend capability flag, and the
configured default TTL in whole seconds. -/
structure NetboxCfg where
  zones : List String
  fallZones : List String
  usePlugin : Bool
  ttlSeconds : Nat

/-- The backend lookup performed by `ServeDNS` after zone matching: the
rich path when the capability flag is set, the legacy path otherwise. -/
def engineResult (n : NetboxCfg) (richB : RichBackend) (legB : LegacyBackend)
    (zone qname : String) (qtype : Nat) : List RR × Option String :=
  if n.usePlugin then queryDNSPlugin richB zone qname qtype
  else queryNative n.ttlSeconds legB qname qtype

/-- Terminal action of `ServeDNS` for one question: delegate to the next
plugin, or write one message with the given rcode, authoritative flag and
answer section. -/
inductive Disposition where
  | delegate
  | write (rcode : Nat) (authoritative : Bool) (answers : List RR)
deriving DecidableEq

/-- Model of `dnserror`: writes an answerless response with the given
rcode and the authoritative bit set. -/
def dnserror (rcode : Nat) : Disposition :=
  Disposition.write rcode true []

/-- Model of `(*Netbox).ServeDNS`: no zone match delegates; a lookup
error delegates when fallthrough is enabled for the name and otherwise
writes SERVFAIL; an empty answer delegates under fallthrough and
otherwise writes NXDOMAIN; a non-empty answer is written authoritatively
with success rcode.  (The qname stands for `state.Name()`, the lowercased
qualified question name.) -/
def serveDNS (n : NetboxCfg) (richB : RichBackend) (legB : LegacyBackend)
    (qname : String) (qtype : Nat) : Disposition :=
  if zonesMatches n.zones qname = "" then Disposition.delegate
  else
    match engineResult n richB legB (zonesMatches n.zones qname) qname qtype with
    | (_, some _) =>
      if fallThrough n.fallZones qname then Disposition.delegate
      else dnserror rcodeServerFailure
    | (answers, none) =>
      if answers.length = 0 then
        if fallThrough n.fallZones qname then Disposition.delegate
        else dnserror rcodeNameError
      else Disposition.write rcodeSuccess true answers

/-! ## Concrete fixtures used by the witness and counterexample theorems -/

/-- CNAME record answering the first lookup of the C1 scenario. -/
def cnameRecC1 : DNSRecord :=
  { rtype := "CNAME", ttl := 8600, value := "mail1",
    absoluteValue := "mail1.example.org.", fqdn := "test.example.org." }

/-- A record answering the alias-target lookup of the C1 scenario. -/
def aRecC1 : DNSRecord :=
  { rtype := "A", ttl := 8600, value := "192.168.0.1",
    absoluteValue := "192.168.0.1", fqdn := "mail1.example.org." }

/-- Rich backend for the C1 scenario: the A question on
test.example.org. yields one CNAME record and the follow-up lookup on
its target succeeds with one A record. -/
def backendC1 : RichBackend :=
  { queryRecord := fun _zone fqdn _qs =>
      if fqdn = "test.example.org." then ([cnameRecC1], none)
      else if fqdn = "mail1.example.org." then ([aRecC1], none)
      else ([], some "bad HTTP response code: 404"),
    queryZone := fun _ => ([], some "bad HTTP response code: 404") }

/-- Engine configuration for the C2 witness. -/
def cfgC2 : NetboxCfg :=
  { zones := ["example.org."], fallZones := [], usePlugin := true, ttlSeconds := 3600 }

/-- Record returned by the rich backend in the C2 witness. -/
def aRecC2 : DNSRecord :=
  { rtype := "A", ttl := 3600, value := "10.0.0.2",
    absoluteValue := "10.0.0.2", fqdn := "host.example.org." }

/-- Rich backend for the C2 witness: every record lookup succeeds with
one A record. -/
def backendC2 : RichBackend :=
  { queryRecord := fun _ _ _ => ([aRecC2], none),
    queryZone := fun _ => ([], none) }

/-- Legacy backend for the C2 witness (unused on the rich path). -/
def legacyC2 : LegacyBackend :=
  { query := fun _ _ => ([], none), queryreverse := fun _ => ([], none) }

/-- MX record with a negative preference field for the C3 counterexample. -/
def mxNegRec : DNSRecord :=
  { rtype := "MX", ttl := 8600, value := "-5 mail1",
    absoluteValue := "-5 mail1.example.org.", fqdn := "example.org." }

/-- MX record whose value has two spaces for the C3 counterexample. -/
def mxSpacesRec : DNSRecord :=
  { rtype := "MX", ttl := 8600, value := "10 mail1 x",
    absoluteValue := "10 mail1.example.org. extra", fqdn := "example.org." }

/-- Well-formed MX record for the C3 witness. -/
def mxGoodRec : DNSRecord :=
  { rtype := "MX", ttl := 8600, value := "10 mail1",
    absoluteValue := "10 mail1.example.org.", fqdn := "example.org." }

/-- CNAME record for the C4 witness scenario. -/
def cnameRecC4 : DNSRecord :=
  { rtype := "CNAME", ttl := 8600, value := "mail1",
    absoluteValue := "mail1.example.org.", fqdn := "test.example.org." }

/-- Rich backend for the C4 witness: the first lookup yields one CNAME
record and every other lookup (in particular the alias-target one)
fails. -/
def backendC4 : RichBackend :=
  { queryRecord := fun _ fqdn _ =>
      if fqdn = "test.example.org." then ([cnameRecC4], none)
      else ([], some "bad HTTP response code: 500"),
    queryZone := fun _ => ([], some "bad HTTP response code: 500") }

/-- A-type record whose absolute value is not an IP literal, for C5. -/
def badARec : DNSRecord :=
  { rtype := "A", ttl := 300, value := "x",
    absoluteValue := "not-an-ip", fqdn := "bad.example.org." }

/-- A record with an explicit TTL for the C6 witness. -/
def recTTL8600 : DNSRecord :=
  { rtype := "A", ttl := 8600, value := "192.168.0.1",
    absoluteValue := "192.168.0.1", fqdn := "mail1.example.org." }

/-- Legacy backend for the C6 witness: the hostname lookup yields one
IPv4 address (legacy backend records carry no TTL of their own). -/
def legacyB1800 : LegacyBackend :=
  { query := fun _ _ => ([IP.v4 10 0 0 2], none),
    queryreverse := fun _ => ([], none) }

/-- Rich backend for the C6 witness: every record lookup yields the one
record with explicit TTL 8600. -/
def richC6 : RichBackend :=
  { queryRecord := fun _ _ _ => ([recTTL8600], none),
    queryZone := fun _ => ([], some "bad HTTP response code: 404") }

/-- Engine configuration for the C7 witness: one zone, no fallthrough,
rich mode. -/
def cfgC7 : NetboxCfg :=
  { zones := ["example.org."], fallZones := [], usePlugin := true, ttlSeconds := 3600 }

/-- Rich backend for the C7 witness (never reached for an unsupported
question type). -/
def richC7 : RichBackend :=
  { queryRecord := fun _ _ _ => ([], none), queryZone := fun _ => ([], none) }

/-- Legacy backend for the C7 witness. -/
def legC7 : LegacyBackend :=
  { query := fun _ _ => ([], none), queryreverse := fun _ => ([], none) }

/-- Record used to exercise the decodable-body case of C8. -/
def recC8 : DNSRecord :=
  { rtype := "A", ttl := 60, value := "192.168.0.9",
    absoluteValue := "192.168.0.9", fqdn := "h.example.org." }

/-- Zone used to exercise the decodable-body case of C8. -/
def zoneC8 : DNSZone :=
  { name := "example.org", mname := "ns1.example.org", rname := "admin.example.org",
    serial := 1742857987, refresh := 43200, retry := 7200, expire := 2419200,
    minimum := 3600, ttl := 86400 }

/-- Backend record with an unsupported type string for the C10 witness. -/
def bbbbRec : DNSRecord :=
  { rtype := "BBBB", ttl := 60, value := "x", absoluteValue := "x",
    fqdn := "x.example.org." }

/-! ## Helper lemmas -/

/-- The answer component produced by the record loop is exactly the
conversion of the records visited, i.e. of the snapshot the range
expression was evaluated on: records appended to the loop variable
during iteration never contribute an answer. -/
theorem rangeResolve_snd (n : RichBackend) (zone : String) (qtype : Nat)
    (l records : List DNSRecord) :
    (rangeResolve n zone qtype l records).2 = l.map DNSRecord.RR := by
  induction l generalizing records with
  | nil => rfl
  | cons record rest ih =>
    simp only [rangeResolve, List.map]
    exact congrArg (DNSRecord.RR record :: ·) (ih _)

/-- For a non-SOA question type present in the query-set map, the rich
dispatch returns exactly the converted records of the first lookup,
together with that lookup's error. -/
theorem queryDNSPlugin_records (n : RichBackend) (zone qname : String) (qtype : Nat)
    (querySet : String) (hq : dnsQueryReverseMap qtype = some querySet)
    (hsoa : qtype ≠ typeSOA) :
    queryDNSPlugin n zone qname qtype =
      ((n.queryRecord zone qname querySet).1.map DNSRecord.RR,
        (n.queryRecord zone qname querySet).2) := by
  simp only [queryDNSPlugin, if_neg hsoa, hq, rangeResolve_snd]

/-- The MX conversion, when it does not yield the null record, keeps the
given header and with it the header's TTL. -/
theorem mxOf_ttl (hd : RRHeader) (l : List String) (h : mxOf hd l ≠ RR.null) :
    RR.headerTTL (mxOf hd l) = some hd.ttl := by
  rcases l with _ | ⟨p, _ | ⟨q, _ | _⟩⟩ <;> try simp [mxOf] at h
  rcases hq : parseInt32 p with _ | v
  · simp [mxOf, hq] at h
  · simp only [mxOf, hq, RR.headerTTL]

/-- A conversion that does not yield the null record carries the backend
record's own TTL in its header. -/
theorem RR_ttl_of_ne_null (r : DNSRecord) (h : DNSRecord.RR r ≠ RR.null) :
    RR.headerTTL (DNSRecord.RR r) = some r.ttl := by
  unfold DNSRecord.RR at h ⊢
  split_ifs at h ⊢ <;> try rfl
  · unfold mxRR at h ⊢
    exact mxOf_ttl _ _ h
  · exact absurd rfl h

/-- Every record produced by the legacy dispatch carries the configured
default TTL. -/
theorem queryNative_ttl (nTTL : Nat) (b : LegacyBackend) (qname : String) (qtype : Nat) :
    ∀ rr ∈ (queryNative nTTL b qname qtype).1, RR.headerTTL rr = some nTTL := by
  intro rr hrr
  unfold queryNative at hrr
  split_ifs at hrr <;> simp only [a, aaaa, ptr, List.mem_map] at hrr
  · obtain ⟨ip, _, rfl⟩ := hrr; rfl
  · obtain ⟨ip, _, rfl⟩ := hrr; rfl
  · obtain ⟨d, _, rfl⟩ := hrr; rfl
  · simp at hrr

/-! ## Claim theorems -/

/-- C1 (code bug evidence): in rich-backend mode, an A question whose
first lookup returns a single CNAME record and whose alias-target lookup
succeeds with one A record nevertheless yields an answer sequence of
exactly one record, the CNAME conversion alone.  Go evaluates the range
expression of the record loop once, so the resolved records appended to
the `records` variable during iteration are never visited and never
reach the answers — the claimed two-record CNAME-then-A answer is not
produced even though the second lookup is made and succeeds. -/
theorem c1_alias_records_never_appended :
    backendC1.queryRecord "example.org." "mail1.example.org." "type=A&type=CNAME"
        = ([aRecC1], none) ∧
    queryDNSPlugin backendC1 "example.org." "test.example.org." typeA
        = ([DNSRecord.RR cnameRecC1], none) ∧
    queryDNSPlugin backendC1 "example.org." "test.example.org." typeA
        ≠ ([DNSRecord.RR cnameRecC1, DNSRecord.RR aRecC1], none) := by
  refine ⟨by decide, by decide, by decide⟩

/-- C2: for a question whose name matches a configured zone, the three
engine outcomes map to the three terminal dispositions: a lookup error
delegates under fallthrough and otherwise writes an authoritative
SERVFAIL; a successful lookup with no answers delegates under
fallthrough and otherwise writes an authoritative NXDOMAIN; a non-empty
answer list is written authoritatively, in the order produced, with no
delegation.  `serveDNS` returns a single `Disposition`, so exactly one
terminal action occurs. -/
theorem c2_disposition (cfg : NetboxCfg) (richB : RichBackend) (legB : LegacyBackend)
    (qname : String) (qtype : Nat)
    (hz : zonesMatches cfg.zones qname ≠ "") :
    (∀ answers e,
      engineResult cfg richB legB (zonesMatches cfg.zones qname) qname qtype = (answers, some e) →
        serveDNS cfg richB legB qname qtype =
          if fallThrough cfg.fallZones qname then Disposition.delegate
          else Disposition.write rcodeServerFailure true []) ∧
    (engineResult cfg richB legB (zonesMatches cfg.zones qname) qname qtype = ([], none) →
        serveDNS cfg richB legB qname qtype =
          if fallThrough cfg.fallZones qname then Disposition.delegate
          else Disposition.write rcodeNameError true []) ∧
    (∀ answers,
      engineResult cfg richB legB (zonesMatches cfg.zones qname) qname qtype = (answers, none) →
      answers ≠ [] →
        serveDNS cfg richB legB qname qtype = Disposition.write rcodeSuccess true answers) := by
  refine ⟨fun answers e he => ?_, fun he => ?_, fun answers he hne => ?_⟩
  · unfold serveDNS
    rw [if_neg hz, he]
    by_cases hf : fallThrough cfg.fallZones qname <;> simp [hf, dnserror]
  · unfold serveDNS
    rw [if_neg hz, he]
    by_cases hf : fallThrough cfg.fallZones qname <;> simp [hf, dnserror]
  · unfold serveDNS
    rw [if_neg hz, he]
    have hlen : answers.length ≠ 0 := by simpa [List.length_eq_zero] using hne
    simp [hlen]

/-- Witness for C2: a matched zone, fallthrough disabled, and a rich
lookup producing one record end in an authoritative success answer. -/
theorem c2_disposition_witness :
    zonesMatches cfgC2.zones "host.example.org." ≠ "" ∧
    serveDNS cfgC2 backendC2 legacyC2 "host.example.org." typeA =
      Disposition.write rcodeSuccess true [DNSRecord.RR aRecC2] :=
  ⟨by decide,
    (c2_disposition cfgC2 backendC2 legacyC2 "host.example.org." typeA (by decide)).2.2
      [DNSRecord.RR aRecC2] (by decide) (by decide)⟩

/-- C3 counterexample: the conversion does not behave as "split on the
first space and require a non-negative integer preference".  The record
whose value starts with the token given by minus five is converted to a
real MX record with preference 65531 (the low 16 bits of the parsed
negative value), not to the null record the claim requires for a
non-non-negative first token; and the record whose value contains two
spaces is dropped to the null record although splitting on the first
space alone would give exactly two tokens. -/
theorem c3_mx_claim_false :
    (DNSRecord.RR mxNegRec =
        RR.mx ⟨"example.org.", typeMX, classINET, 8600⟩ 65531 "mail1.example.org." ∧
      DNSRecord.RR mxNegRec ≠ RR.null) ∧
    DNSRecord.RR mxSpacesRec = RR.null := by
  refine ⟨⟨by decide, by decide⟩, by decide⟩

/-- C3 (amended): the MX conversion splits the absolute value on every
space and requires exactly two fields; the first field is parsed by the
signed 32-bit integer parse, and failure of either check produces the
null record; on success the emitted MX record carries the low 16 bits of
the parsed (possibly negative) value as preference and the second field
as the exchange host. -/
theorem c3_mx_conversion (r : DNSRecord) (hM : r.rtype = "MX") :
    ((splitSpace r.absoluteValue).length ≠ 2 → DNSRecord.RR r = RR.null) ∧
    (∀ prefStr host, splitSpace r.absoluteValue = [prefStr, host] →
      (parseInt32 prefStr = none → DNSRecord.RR r = RR.null) ∧
      (∀ v, parseInt32 prefStr = some v →
        DNSRecord.RR r =
          RR.mx ⟨r.fqdn, typeMX, classINET, r.ttl⟩ ((v % 65536).toNat) host)) := by
  have hRR : DNSRecord.RR r =
      mxOf ⟨r.fqdn, typeMX, classINET, r.ttl⟩ (splitSpace r.absoluteValue) := by
    unfold DNSRecord.RR mxRR
    rw [hM]
    simp [dnsRecordReverseMap]
  constructor
  · intro hlen
    rw [hRR]
    rcases hsp : splitSpace r.absoluteValue with _ | ⟨p, _ | ⟨q, _ | _⟩⟩
    · simp [mxOf]
    · simp [mxOf]
    · exact absurd (by rw [hsp]; rfl) hlen
    · simp [mxOf]
  · intro prefStr host hsp
    rw [hRR, hsp]
    constructor
    · intro hnone
      simp [mxOf, hnone]
    · intro v hv
      simp [mxOf, hv]

/-- Witness for C3 (amended): the documented well-formed input with
preference 10 and exchange mail1.example.org. converts to the expected
MX record. -/
theorem c3_mx_conversion_witness :
    mxGoodRec.rtype = "MX" ∧
    splitSpace mxGoodRec.absoluteValue = ["10", "mail1.example.org."] ∧
    parseInt32 "10" = some 10 ∧
    DNSRecord.RR mxGoodRec =
      RR.mx ⟨"example.org.", typeMX, classINET, 8600⟩ 10 "mail1.example.org." :=
  ⟨rfl, by decide, by decide,
    ((c3_mx_conversion mxGoodRec rfl).2 "10" "mail1.example.org." (by decide)).2 10 (by decide)⟩

/-- C4: when an A or AAAA question's first lookup returns a single CNAME
record and the alias-target lookup errors, the error is swallowed: the
overall outcome is a nil error and the answer sequence is exactly the
converted CNAME record of the first lookup. -/
theorem c4_alias_error_swallowed (n : RichBackend) (zone qname : String) (qtype : Nat)
    (rec : DNSRecord) (e : String)
    (hq : qtype = typeA ∨ qtype = typeAAAA)
    (hrec : rec.rtype = "CNAME")
    (hfirst : n.queryRecord zone qname (querySetFor qtype) = ([rec], none))
    (hsecond : (n.queryRecord zone rec.absoluteValue (querySetFor qtype)).2 = some e) :
    queryDNSPlugin n zone qname qtype = ([DNSRecord.RR rec], none) := by
  have hsoa : qtype ≠ typeSOA := by rcases hq with h | h <;> subst h <;> decide
  have hm : dnsQueryReverseMap qtype = some (querySetFor qtype) := by
    rcases hq with h | h <;> subst h <;> rfl
  rw [queryDNSPlugin_records n zone qname qtype (querySetFor qtype) hm hsoa, hfirst]
  rfl

/-- Witness for C4: a backend whose alias-target lookup fails with a 500
status still produces the lone CNAME answer and a nil overall error. -/
theorem c4_alias_error_swallowed_witness :
    (cnameRecC4.rtype = "CNAME" ∧
      backendC4.queryRecord "example.org." "test.example.org." (querySetFor typeA) =
        ([cnameRecC4], none) ∧
      (backendC4.queryRecord "example.org." cnameRecC4.absoluteValue (querySetFor typeA)).2 =
        some "bad HTTP response code: 500") ∧
    queryDNSPlugin backendC4 "example.org." "test.example.org." typeA =
      ([DNSRecord.RR cnameRecC4], none) :=
  ⟨⟨rfl, by decide, by decide⟩,
    c4_alias_error_swallowed backendC4 "example.org." "test.example.org." typeA cnameRecC4
      "bad HTTP response code: 500" (Or.inl rfl) rfl (by decide) (by decide)⟩

/-- C5 counterexample: an A-type record whose absolute value is not an
IP literal is not converted to the null record — the conversion emits an
A record whose address payload is the nil result of the failed parse. -/
theorem c5_claim_false :
    parseIP "not-an-ip" = none ∧
    DNSRecord.RR badARec = RR.a ⟨"bad.example.org.", typeA, classINET, 300⟩ none ∧
    DNSRecord.RR badARec ≠ RR.null := by
  refine ⟨by decide, by decide, by decide⟩

/-- C5 (amended): for an A or AAAA record whose absolute value does not
parse as an IP address literal, the conversion does not crash and does
not emit a null record; it emits an A or AAAA resource record with an
absent (nil) address payload, so no address reaches the answer. -/
theorem c5_bad_ip_conversion (r : DNSRecord) (hbad : parseIP r.absoluteValue = none) :
    (r.rtype = "A" → DNSRecord.RR r = RR.a ⟨r.fqdn, typeA, classINET, r.ttl⟩ none) ∧
    (r.rtype = "AAAA" → DNSRecord.RR r = RR.aaaa ⟨r.fqdn, typeAAAA, classINET, r.ttl⟩ none) := by
  constructor <;> intro ht <;>
    simp [DNSRecord.RR, ht, dnsRecordReverseMap, hbad]

/-- Witness for C5 (amended): the bad-literal record converts to an A
record with no address payload. -/
theorem c5_bad_ip_conversion_witness :
    parseIP badARec.absoluteValue = none ∧
    DNSRecord.RR badARec = RR.a ⟨"bad.example.org.", typeA, classINET, 300⟩ none :=
  ⟨by decide, (c5_bad_ip_conversion badARec (by decide)).1 rfl⟩

/-- C6: the record-to-resource-record conversion always carries the
record's own TTL verbatim (a zero TTL is emitted as zero); the legacy
dispatcher stamps the configured default TTL onto every record it
builds; and the rich dispatcher hands backend records to the conversion
unchanged, so no TTL substitution happens on that path. -/
theorem c6_ttl_handling (r : DNSRecord) (nTTL : Nat) (legB : LegacyBackend)
    (richB : RichBackend) (zone qname lqname : String) (qtype lqtype : Nat)
    (querySet : String) :
    (DNSRecord.RR r ≠ RR.null → RR.headerTTL (DNSRecord.RR r) = some r.ttl) ∧
    (∀ rr ∈ (queryNative nTTL legB lqname lqtype).1, RR.headerTTL rr = some nTTL) ∧
    (dnsQueryReverseMap qtype = some querySet → qtype ≠ typeSOA →
      (queryDNSPlugin richB zone qname qtype).1 =
        ((richB.queryRecord zone qname querySet).1).map DNSRecord.RR) :=
  ⟨RR_ttl_of_ne_null r, queryNative_ttl nTTL legB lqname lqtype,
    fun hm hsoa => congrArg Prod.fst (queryDNSPlugin_records richB zone qname qtype querySet hm hsoa)⟩

/-- Witness for C6: a record with explicit TTL 8600 converts with TTL
8600 unchanged, the legacy dispatcher with configured default 1800
stamps 1800 on its records, and the rich dispatcher returns the plain
conversions of the backend records. -/
theorem c6_ttl_handling_witness :
    (DNSRecord.RR recTTL8600 ≠ RR.null ∧
      RR.headerTTL (DNSRecord.RR recTTL8600) = some 8600) ∧
    (∀ rr ∈ (queryNative 1800 legacyB1800 "myhost." typeA).1,
      RR.headerTTL rr = some 1800) ∧
    (queryDNSPlugin richC6 "example.org." "mail1.example.org." typeA).1 =
      [DNSRecord.RR recTTL8600] := by
  obtain ⟨h1, h2, h3⟩ := c6_ttl_handling recTTL8600 1800 legacyB1800 richC6
    "example.org." "mail1.example.org." "myhost." typeA typeA "type=A&type=CNAME"
  exact ⟨⟨by decide, h1 (by decide)⟩, h2, by rw [h3 rfl (by decide)]; rfl⟩

/-- C7: a question type outside the supported set fails immediately with
the "request type not implemented" error — on the legacy path for
anything other than A, AAAA, PTR, on the rich path for anything that is
neither SOA nor in the query-set map — and for a matched zone with
fallthrough disabled the disposition policy then treats it as a lookup
error, writing an authoritative SERVFAIL. -/
theorem c7_not_implemented (cfg : NetboxCfg) (nTTL : Nat) (legB : LegacyBackend)
    (richB : RichBackend) (zone qname : String) (qtype : Nat) :
    (qtype ≠ typeA → qtype ≠ typeAAAA → qtype ≠ typePTR →
      queryNative nTTL legB qname qtype = ([], some "request type not implemented")) ∧
    (qtype ≠ typeSOA → dnsQueryReverseMap qtype = none →
      queryDNSPlugin richB zone qname qtype = ([], some "request type not implemented")) ∧
    (zonesMatches cfg.zones qname ≠ "" → fallThrough cfg.fallZones qname = false →
      cfg.usePlugin = true → qtype ≠ typeSOA → dnsQueryReverseMap qtype = none →
      serveDNS cfg richB legB qname qtype = Disposition.write rcodeServerFailure true []) := by
  refine ⟨fun h1 h2 h3 => ?_, fun hsoa hm => ?_, fun hz hf hu hsoa hm => ?_⟩
  · unfold queryNative
    rw [if_neg h1, if_neg h2, if_neg h3]
  · unfold queryDNSPlugin
    rw [if_neg hsoa, hm]
  · have hplug : queryDNSPlugin richB (zonesMatches cfg.zones qname) qname qtype =
        ([], some "request type not implemented") := by
      unfold queryDNSPlugin
      rw [if_neg hsoa, hm]
    unfold serveDNS engineResult
    rw [if_neg hz]
    simp [hu, hplug, hf, dnserror]

/-- Witness for C7: question type 13 (HINFO) is unsupported on both
paths and, with a matched zone and no fallthrough, ends in an
authoritative SERVFAIL. -/
theorem c7_not_implemented_witness :
    queryNative 3600 legC7 "test.example.org." 13 =
      ([], some "request type not implemented") ∧
    queryDNSPlugin richC7 "example.org." "test.example.org." 13 =
      ([], some "request type not implemented") ∧
    serveDNS cfgC7 richC7 legC7 "test.example.org." 13 =
      Disposition.write rcodeServerFailure true [] := by
  obtain ⟨h1, h2, h3⟩ := c7_not_implemented cfgC7 3600 legC7 richC7
    "example.org." "test.example.org." 13
  exact ⟨h1 (by decide) (by decide) (by decide), h2 (by decide) rfl,
    h3 (by decide) (by decide) rfl (by decide) rfl⟩

/-- C8: for both rich-backend lookups a transport error, a status other
than 200 (the one success status, http.StatusOK), and an undecodable
body each yield a non-nil lookup error, while a 200 response with a
decodable body yields the parsed list and a nil error — so a lookup
error is always distinguishable from a successful lookup with zero
results. -/
theorem c8_lookup_errors (st : Nat) (recs : List DNSRecord) (zs : List DNSZone)
    (bodyR : Option (List DNSRecord)) (bodyZ : Option (List DNSZone)) (m : String) :
    ((queryRecord (.transportError m)).2.isSome ∧
      (queryZone (.transportError m)).2.isSome) ∧
    (st ≠ 200 →
      (queryRecord (.response st bodyR)).2.isSome ∧
        (queryZone (.response st bodyZ)).2.isSome) ∧
    ((queryRecord (.response 200 none)).2.isSome ∧
      (queryZone (.response 200 none)).2.isSome) ∧
    (queryRecord (.response 200 (some recs)) = (recs, none) ∧
      queryZone (.response 200 (some zs)) = (zs, none)) := by
  refine ⟨⟨rfl, rfl⟩, fun h => ⟨?_, ?_⟩, ⟨rfl, rfl⟩, rfl, rfl⟩
  · simp [queryRecord, h]
  · simp [queryZone, h]

/-- Witness for C8: status 404 is an error on both lookups, and a 200
response with a decodable one-element body parses to that element with a
nil error. -/
theorem c8_lookup_errors_witness :
    (404 : Nat) ≠ 200 ∧
    (queryRecord (.response 404 none)).2.isSome ∧
    queryRecord (.response 200 (some [recC8])) = ([recC8], none) ∧
    queryZone (.response 200 (some [zoneC8])) = ([zoneC8], none) := by
  obtain ⟨h1, h2, h3, h4⟩ := c8_lookup_errors 404 [recC8] [zoneC8] none none "connection refused"
  exact ⟨by decide, (h2 (by decide)).1, h4.1, h4.2⟩

/-- C9: the SOA conversion produces a record whose owner, primary
nameserver and mailbox are the zone's name, mname and rname each with a
trailing dot appended, whose serial, refresh, retry, expire and minimum
equal the zone's fields exactly, and whose TTL is the zone's own SOA
TTL. -/
theorem c9_soa_conversion (z : DNSZone) :
    DNSZone.RR z =
      RR.soa ⟨z.name ++ ".", typeSOA, classINET, z.ttl⟩ (z.mname ++ ".") (z.rname ++ ".")
        z.serial z.refresh z.retry z.expire z.minimum ∧
    RR.headerTTL (DNSZone.RR z) = some z.ttl :=
  ⟨rfl, rfl⟩

/-- C10: the conversion is total over the record's type string — any
type outside the supported set is converted to the NULL no-op record
rather than failing or producing a record of arbitrary type. -/
theorem c10_unknown_type_null (r : DNSRecord)
    (h : r.rtype ∉ (["A", "AAAA", "PTR", "CNAME", "NS", "SOA", "MX", "TXT"] : List String)) :
    DNSRecord.RR r = RR.null := by
  simp only [List.mem_cons, List.not_mem_nil, or_false, not_or] at h
  obtain ⟨h1, h2, h3, h4, h5, h6, h7, h8⟩ := h
  unfold DNSRecord.RR
  rw [if_neg h1, if_neg h2, if_neg h4, if_neg h3, if_neg h5, if_neg h7, if_neg h8]

/-- Witness for C10: the unknown type string BBBB is outside the
supported set and its record converts to the NULL record. -/
theorem c10_unknown_type_null_witness :
    bbbbRec.rtype ∉ (["A", "AAAA", "PTR", "CNAME", "NS", "SOA", "MX", "TXT"] : List String) ∧
    DNSRecord.RR bbbbRec = RR.null :=
  ⟨by decide, c10_unknown_type_null bbbbRec (by decide)⟩
